import Mathlib

/-!
Shallow embedding of the DayTradingApp identity/wallet core: the
Authentication service (credential store, token issue/validate) and the
User Account service (account ledger, deposit, profile update), following
src/AuthenticationService/AuthenticationService.go and
src/UserAccountService/UserAccountService.go.

Modelling conventions:
- Mongo collections are lists of records in insertion order; FindOne is
  first match, InsertOne appends, UpdateOne mutates the first match and
  reports the matched count, CountDocuments counts matches.
- Time is in seconds as a Nat; the 1-hour token lifetime is 3600.
- The wallet (a Go float64) is modelled as an exact rational; the deposit
  increment is a single atomic storage operation, as with the Mongo $inc.
- The bcrypt capability is a parameter: hash as a function argument to
  registration, digest comparison as a function argument to login.
- A JWT is modelled by its header algorithm, the key material it was
  signed with, and its claims; a signature verifies under a byte key
  exactly when the algorithm is in the HMAC family and the key matches
  (RSA and ECDSA verification rejects a byte key; the none algorithm is
  rejected unless a special sentinel key is supplied, which never is).
- HTTP outcomes are a status code plus a message.
-/

namespace DayTrading

/-- Identity record stored by the Authentication service (struct User). -/
structure User where
  username : String
  password : String
  name : String
deriving DecidableEq

/-- Account record stored by the User Account service (struct UserAccount). -/
structure UserAccount where
  username : String
  name : String
  bankName : String
  wallet : Rat
  updatedAt : Nat
deriving DecidableEq

/-- An HTTP error outcome: status code and message. -/
structure HErr where
  status : Nat
  msg : String
deriving DecidableEq

/-- JWT signing algorithm named in a token header. -/
inductive Alg where
  | HS256
  | HS384
  | HS512
  | RS256
  | NoneAlg
deriving DecidableEq

/-- The HMAC family of signing algorithms: those whose verification
accepts a symmetric byte key. -/
def Alg.isHMAC : Alg → Bool
  | .HS256 => true
  | .HS384 => true
  | .HS512 => true
  | _ => false

/-- A signed JWT: header algorithm, the key material used at signing,
and the claims (custom Username, registered Subject, IssuedAt,
ExpiresAt). -/
structure SignedToken where
  alg : Alg
  key : String
  username : String
  subject : String
  issuedAt : Nat
  expiresAt : Nat
deriving DecidableEq

/-- Process-wide symmetric signing key, identical in both services. -/
def jwtKey : String := "supersecretkey"

/-- FindOne on the users collection: first record with the username. -/
def findUser : List User → String → Option User
  | [], _ => none
  | u :: rest, name => if u.username = name then some u else findUser rest name

/-- CountDocuments on the users collection filtered by username. -/
def countUsers : List User → String → Nat
  | [], _ => 0
  | u :: rest, name =>
    (if u.username = name then 1 else 0) + countUsers rest name

/-- UpdateOne on the users collection: set the name field of the first
record matching the username; second component is the matched count. -/
def updateOneSetUser : List User → String → String → List User × Nat
  | [], _, _ => ([], 0)
  | u :: rest, uname, newName =>
    if u.username = uname then
      ({ u with name := newName } :: rest, 1)
    else
      (u :: (updateOneSetUser rest uname newName).1,
       (updateOneSetUser rest uname newName).2)

/-- Token check of AuthenticationService.validateJWTFromRequest:
jwt.ParseWithClaims with a keyfunc rejecting non-HMAC methods and with
WithValidMethods restricted to HS256; any parse, signature or claims
failure collapses to one error. Claims are valid while now < ExpiresAt. -/
def validateJWTFromRequest (tok : SignedToken) (now : Nat) :
    Except HErr SignedToken :=
  if tok.alg ≠ Alg.HS256 then .error ⟨401, "invalid or expired token"⟩
  else if ¬ tok.alg.isHMAC then .error ⟨401, "invalid or expired token"⟩
  else if tok.key ≠ jwtKey then .error ⟨401, "invalid or expired token"⟩
  else if tok.expiresAt ≤ now then .error ⟨401, "invalid or expired token"⟩
  else .ok tok

/-- Token check of the UserAccountService authenticate middleware:
jwt.ParseWithClaims whose keyfunc returns the byte key for every method
and with no valid-methods restriction, so any HMAC-family token signed
with the shared key verifies; non-HMAC methods fail signature
verification against the byte key. On success the Subject claim is
passed to the handler as the username. -/
def authenticateToken (tok : SignedToken) (now : Nat) : Except HErr String :=
  if ¬ tok.alg.isHMAC then .error ⟨401, "Invalid or expired token"⟩
  else if tok.key ≠ jwtKey then .error ⟨401, "Invalid or expired token"⟩
  else if tok.expiresAt ≤ now then .error ⟨401, "Invalid or expired token"⟩
  else .ok tok.subject

/-- Token built by loginHandler: HS256, process key, Username and Subject
set to the username, IssuedAt now, ExpiresAt now + 1 hour. -/
def issueToken (username : String) (now : Nat) : SignedToken :=
  { alg := Alg.HS256
    key := jwtKey
    username := username
    subject := username
    issuedAt := now
    expiresAt := now + 3600 }

/-- loginHandler: FindOne by username; no document and a failed digest
comparison both yield 401 with the same message; otherwise sign and
return a token together with the username. The digest comparison
capability (bcrypt.CompareHashAndPassword) is the parameter compare. -/
def loginHandler (compare : String → String → Bool) (users : List User)
    (username password : String) (now : Nat) :
    Except HErr (SignedToken × String) :=
  match findUser users username with
  | none => .error ⟨401, "Invalid username or password"⟩
  | some user =>
    if compare user.password password then
      .ok (issueToken username now, username)
    else
      .error ⟨401, "Invalid username or password"⟩

/-- registerHandler: reject any empty field with 400, reject an already
present username (CountDocuments > 0) with 409, otherwise insert one
record whose password field is the bcrypt digest of the supplied
password; the hashing capability is the parameter hash. Returns the new
collection, the status and the message. -/
def registerHandler (hash : String → String) (users : List User)
    (username password name : String) : List User × Nat × String :=
  if username = "" ∨ password = "" ∨ name = "" then
    (users, 400, "Missing required fields")
  else if 0 < countUsers users username then
    (users, 409, "Username already exists")
  else
    (users ++ [{ username := username, password := hash password, name := name }],
     201, "User registered successfully")

/-- updateUserInfo (PUT /authinfo/update): UpdateOne setting the name of
the record matching the username; the matched count is ignored, so the
handler answers 200 whether or not such a record exists. -/
def updateUserInfo (users : List User) (username name : String) :
    List User × Nat × String :=
  ((updateOneSetUser users username name).1, 200, "Auth user name updated")

/-- getUserInfo (GET /authinfo/username): requires a bearer token that
validates and whose Username claim equals the path username; then
FindOne by username and answer the public pair of username and display
name. The bearer argument is the Authorization header content, if any. -/
def getUserInfo (users : List User) (bearer : Option SignedToken)
    (now : Nat) (username : String) : Except HErr (String × String) :=
  match bearer with
  | none => .error ⟨401, "Unauthorized"⟩
  | some tok =>
    match validateJWTFromRequest tok now with
    | .error _ => .error ⟨401, "Unauthorized"⟩
    | .ok claims =>
      if username = "" then .error ⟨400, "Username missing"⟩
      else if claims.username ≠ username then .error ⟨403, "Forbidden"⟩
      else
        match findUser users username with
        | none => .error ⟨404, "User not found"⟩
        | some user => .ok (user.username, user.name)

/-- FindOne on the accounts collection: first record with the username. -/
def findAccount : List UserAccount → String → Option UserAccount
  | [], _ => none
  | a :: rest, name => if a.username = name then some a else findAccount rest name

/-- UpdateOne with $inc wallet and $set updated_at: mutate the first
record matching the username as one atomic storage operation; second
component is the matched count. -/
def updateOneInc : List UserAccount → String → Rat → Nat → List UserAccount × Nat
  | [], _, _, _ => ([], 0)
  | a :: rest, uname, amt, now =>
    if a.username = uname then
      ({ a with wallet := a.wallet + amt, updatedAt := now } :: rest, 1)
    else
      (a :: (updateOneInc rest uname amt now).1,
       (updateOneInc rest uname amt now).2)

/-- UpdateOne with $set name, bank_name, updated_at: mutate the first
record matching the username; second component is the matched count. -/
def updateOneSet : List UserAccount → String → String → String → Nat →
    List UserAccount × Nat
  | [], _, _, _, _ => ([], 0)
  | a :: rest, uname, n, b, now =>
    if a.username = uname then
      ({ a with name := n, bankName := b, updatedAt := now } :: rest, 1)
    else
      (a :: (updateOneSet rest uname n b now).1,
       (updateOneSet rest uname n b now).2)

/-- getAccount handler body, after the authenticate middleware has
supplied the username. FindOne on the accounts collection; when absent,
issue an HTTP GET to the Authentication service at /authinfo/username.
That GET (http.Get) carries no Authorization header, so the bearer
argument of getUserInfo is none. A non-200 reply maps to a 404 for the
caller; on a 200 reply a fresh record with wallet 0 and empty bank name
is inserted and returned. Returns the answer and the resulting
collection. -/
def getAccount (users : List User) (accounts : List UserAccount)
    (username : String) (now : Nat) :
    Except HErr UserAccount × List UserAccount :=
  match findAccount accounts username with
  | some acc => (.ok acc, accounts)
  | none =>
    match getUserInfo users none now username with
    | .error _ => (.error ⟨404, "Account not found"⟩, accounts)
    | .ok info =>
      let acc : UserAccount :=
        { username := info.1, name := info.2, bankName := "", wallet := 0,
          updatedAt := now }
      (.ok acc, accounts ++ [acc])

/-- GET /account end to end: the authenticate middleware validates the
bearer token and passes the Subject claim as the username to the
getAccount handler. -/
def getAccountEndpoint (users : List User) (accounts : List UserAccount)
    (tok : SignedToken) (now : Nat) :
    Except HErr UserAccount × List UserAccount :=
  match authenticateToken tok now with
  | .error e => (.error e, accounts)
  | .ok username => getAccount users accounts username now

/-- Outcome of the updateAccount handler: resulting collection, HTTP
status and message, and whether the goroutine that pushes the name to
the Authentication service was dispatched before the handler returned. -/
structure UpdateOutcome where
  accounts : List UserAccount
  status : Nat
  msg : String
  propagationDispatched : Bool
deriving DecidableEq

/-- updateAccount (PUT /account/update): UpdateOne setting name,
bank_name and updated_at on the record matching the username. When no
record matched, insert a fresh one with wallet 0 and return at once —
this early return skips the propagation goroutine. Only the branch for
an existing record falls through to the go func that pushes the name to
the Authentication service, dispatched after the response is written. -/
def updateAccount (accounts : List UserAccount) (username name bankName : String)
    (now : Nat) : UpdateOutcome :=
  if (updateOneSet accounts username name bankName now).2 = 0 then
    { accounts := (updateOneSet accounts username name bankName now).1 ++
        [{ username := username, name := name, bankName := bankName,
           wallet := 0, updatedAt := now }]
      status := 200
      msg := "Account created and updated"
      propagationDispatched := false }
  else
    { accounts := (updateOneSet accounts username name bankName now).1
      status := 200
      msg := "Account updated"
      propagationDispatched := true }

/-- depositMoney (POST /account/deposit): reject amount ≤ 0 with 400;
otherwise UpdateOne with an atomic $inc on wallet; a matched count of
zero (no record for the username) answers 500 with the same message as
a storage failure. Returns the resulting collection and the outcome. -/
def depositMoney (accounts : List UserAccount) (username : String)
    (amount : Rat) (now : Nat) : List UserAccount × Except HErr Unit :=
  if amount ≤ 0 then
    (accounts, .error ⟨400, "Invalid deposit request"⟩)
  else if (updateOneInc accounts username amount now).2 = 0 then
    ((updateOneInc accounts username amount now).1,
     .error ⟨500, "Deposit failed"⟩)
  else
    ((updateOneInc accounts username amount now).1, .ok ())

/-! Helper lemmas about the storage operations. -/

theorem countUsers_eq_zero_iff (users : List User) (uname : String) :
    countUsers users uname = 0 ↔ findUser users uname = none := by
  induction users with
  | nil => simp [countUsers, findUser]
  | cons u rest ih =>
    by_cases hu : u.username = uname
    · simp [countUsers, findUser, hu]
    · simp [countUsers, findUser, hu, ih]

theorem updateOneSetUser_of_findUser_none {users : List User} {uname : String}
    (h : findUser users uname = none) (newName : String) :
    updateOneSetUser users uname newName = (users, 0) := by
  induction users with
  | nil => rfl
  | cons u rest ih =>
    rw [findUser] at h
    by_cases hu : u.username = uname
    · simp [hu] at h
    · rw [if_neg hu] at h
      rw [updateOneSetUser, if_neg hu, ih h]

theorem updateOneInc_of_findAccount_none {accounts : List UserAccount}
    {uname : String} (h : findAccount accounts uname = none)
    (amt : Rat) (now : Nat) :
    updateOneInc accounts uname amt now = (accounts, 0) := by
  induction accounts with
  | nil => rfl
  | cons a rest ih =>
    rw [findAccount] at h
    by_cases ha : a.username = uname
    · simp [ha] at h
    · rw [if_neg ha] at h
      rw [updateOneInc, if_neg ha, ih h]

theorem updateOneInc_of_findAccount_some {accounts : List UserAccount}
    {uname : String} {acc : UserAccount}
    (h : findAccount accounts uname = some acc) (amt : Rat) (now : Nat) :
    (updateOneInc accounts uname amt now).2 = 1 ∧
    findAccount (updateOneInc accounts uname amt now).1 uname =
      some { acc with wallet := acc.wallet + amt, updatedAt := now } := by
  induction accounts with
  | nil => simp [findAccount] at h
  | cons a rest ih =>
    rw [findAccount] at h
    by_cases ha : a.username = uname
    · rw [if_pos ha] at h
      injection h with h
      subst h
      rw [updateOneInc, if_pos ha]
      exact ⟨rfl, by simp [findAccount, ha]⟩
    · rw [if_neg ha] at h
      obtain ⟨h1, h2⟩ := ih h
      rw [updateOneInc, if_neg ha]
      exact ⟨h1, by rw [findAccount, if_neg ha]; exact h2⟩

theorem findAccount_some_split {accounts : List UserAccount} {uname : String}
    {acc : UserAccount} (h : findAccount accounts uname = some acc) :
    acc.username = uname ∧
    ∃ pre suf, accounts = pre ++ acc :: suf ∧ ∀ x ∈ pre, x.username ≠ uname := by
  induction accounts with
  | nil => simp [findAccount] at h
  | cons a rest ih =>
    rw [findAccount] at h
    by_cases ha : a.username = uname
    · rw [if_pos ha] at h
      injection h with h
      subst h
      exact ⟨ha, [], rest, rfl, by simp⟩
    · rw [if_neg ha] at h
      obtain ⟨h1, pre, suf, heq, hpre⟩ := ih h
      refine ⟨h1, a :: pre, suf, by rw [heq]; rfl, ?_⟩
      intro x hx
      rcases List.mem_cons.mp hx with hx | hx
      · rw [hx]; exact ha
      · exact hpre x hx

theorem updateOneSet_of_prefix (pre suf : List UserAccount) (acc : UserAccount)
    (uname n b : String) (now : Nat)
    (hpre : ∀ x ∈ pre, x.username ≠ uname) (hacc : acc.username = uname) :
    updateOneSet (pre ++ acc :: suf) uname n b now =
      (pre ++ { acc with name := n, bankName := b, updatedAt := now } :: suf, 1) := by
  induction pre with
  | nil => simp [updateOneSet, hacc]
  | cons p ps ih =>
    have hp : p.username ≠ uname := hpre p (by simp)
    have ih2 := ih fun x hx => hpre x (List.mem_cons_of_mem p hx)
    simp only [List.cons_append, updateOneSet, if_neg hp, List.append_eq, ih2]

theorem updateOneSet_snd_eq_zero_iff (accounts : List UserAccount)
    (uname n b : String) (now : Nat) :
    (updateOneSet accounts uname n b now).2 = 0 ↔
      findAccount accounts uname = none := by
  induction accounts with
  | nil => simp [updateOneSet, findAccount]
  | cons a rest ih =>
    by_cases ha : a.username = uname
    · simp [updateOneSet, findAccount, ha]
    · simp [updateOneSet, findAccount, ha, ih]

theorem depositMoney_of_found {accounts : List UserAccount} {uname : String}
    {acc : UserAccount} (h : findAccount accounts uname = some acc)
    {amount : Rat} (hpos : 0 < amount) (now : Nat) :
    (depositMoney accounts uname amount now).2 = .ok () ∧
    findAccount (depositMoney accounts uname amount now).1 uname =
      some { acc with wallet := acc.wallet + amount, updatedAt := now } := by
  obtain ⟨h1, h2⟩ := updateOneInc_of_findAccount_some h amount now
  unfold depositMoney
  rw [if_neg (not_le.mpr hpos), h1]
  simp [h2]

/-! Claim theorems. -/

/-- Claim C1: the spec requires getAccount, for a username with an
Identity record but no Account record, to create and return an Account
record with wallet 0 and the Identity display name. The code violates
this: the lazy-creation path fetches /authinfo/username with a plain
http.Get carrying no Authorization header, while getUserInfo demands a
valid bearer token, so the fetch always yields 401 and getAccount
answers 404 without creating anything — regardless of the caller holding
a valid token for the username and the Identity record existing. -/
theorem C1_lazy_account_creation_broken (users : List User)
    (accounts : List UserAccount) (tok : SignedToken) (uname : String)
    (now : Nat)
    (htok : authenticateToken tok now = .ok uname)
    (hid : (findUser users uname).isSome = true)
    (hacc : findAccount accounts uname = none) :
    getAccountEndpoint users accounts tok now =
      (.error ⟨404, "Account not found"⟩, accounts) := by
  unfold getAccountEndpoint
  rw [htok]
  unfold getAccount
  dsimp only
  rw [hacc]
  rfl

/-- Claim C1 witness: with an Identity record for alice, no Account
record, and a freshly issued valid token for alice, GET /account answers
404 and inserts nothing. -/
theorem C1_lazy_account_creation_broken_witness :
    getAccountEndpoint [{ username := "alice", password := "digest", name := "Alice A" }]
      [] (issueToken "alice" 0) 0 =
      (.error ⟨404, "Account not found"⟩, []) :=
  C1_lazy_account_creation_broken
    [{ username := "alice", password := "digest", name := "Alice A" }]
    [] (issueToken "alice" 0) "alice" 0 rfl rfl rfl

/-- Claim C2 counterexample: the User Account service middleware accepts
an HS384 token signed with the shared key, so it does not reject every
algorithm other than HS256. -/
theorem C2_uas_accepts_HS384 :
    authenticateToken
      { alg := Alg.HS384, key := jwtKey, username := "alice",
        subject := "alice", issuedAt := 0, expiresAt := 3600 } 0 =
      .ok "alice" ∧
    Alg.HS384 ≠ Alg.HS256 :=
  ⟨rfl, by decide⟩

/-- Claim C2 amended: only the Authentication service restricts the
signing algorithm — its validation rejects every token whose header
algorithm is not HS256; the User Account service imposes no algorithm
allow-list and accepts any HMAC-family token signed with the shared
key. -/
theorem C2_auth_rejects_non_HS256 (tok : SignedToken) (now : Nat)
    (h : tok.alg ≠ Alg.HS256) :
    validateJWTFromRequest tok now =
      .error ⟨401, "invalid or expired token"⟩ := by
  unfold validateJWTFromRequest
  rw [if_pos h]

/-- Claim C2 amended witness: the Authentication service rejects an
HS384 token even when it is signed with the correct shared key and
unexpired. -/
theorem C2_auth_rejects_non_HS256_witness :
    validateJWTFromRequest
      { alg := Alg.HS384, key := jwtKey, username := "alice",
        subject := "alice", issuedAt := 0, expiresAt := 3600 } 0 =
      .error ⟨401, "invalid or expired token"⟩ :=
  C2_auth_rejects_non_HS256
    { alg := Alg.HS384, key := jwtKey, username := "alice",
      subject := "alice", issuedAt := 0, expiresAt := 3600 } 0 (by decide)

/-- Claim C3 counterexample: depositing a positive amount for a username
with no Account record fails with status 500 and the generic message
used for storage failures, not with a not-found (404) error. -/
theorem C3_missing_account_is_500 :
    depositMoney [] "alice" 5 0 = ([], .error ⟨500, "Deposit failed"⟩) ∧
    (500 : Nat) ≠ 404 :=
  ⟨rfl, by decide⟩

/-- Claim C3 amended: deposit succeeds exactly when the amount is
positive and an Account record exists; a non-positive amount fails with
a 400 bad-request error and leaves the store unchanged; a missing record
fails with a generic 500 internal-server error (the same status and
message as a storage failure, not a 404) and leaves the store unchanged;
deposit never lazily creates an account; on success the matched record's
wallet is incremented by the amount. -/
theorem C3_deposit_cases (accounts : List UserAccount) (uname : String)
    (amount : Rat) (now : Nat) :
    (amount ≤ 0 →
      depositMoney accounts uname amount now =
        (accounts, .error ⟨400, "Invalid deposit request"⟩)) ∧
    (0 < amount → findAccount accounts uname = none →
      depositMoney accounts uname amount now =
        (accounts, .error ⟨500, "Deposit failed"⟩)) ∧
    (∀ acc, 0 < amount → findAccount accounts uname = some acc →
      (depositMoney accounts uname amount now).2 = .ok () ∧
      findAccount (depositMoney accounts uname amount now).1 uname =
        some { acc with wallet := acc.wallet + amount, updatedAt := now }) := by
  refine ⟨?_, ?_, ?_⟩
  · intro h
    unfold depositMoney
    rw [if_pos h]
  · intro hpos hnone
    have hupd := updateOneInc_of_findAccount_none hnone amount now
    unfold depositMoney
    rw [if_neg (not_le.mpr hpos), hupd]
    simp
  · intro acc hpos hsome
    exact depositMoney_of_found hsome hpos now

/-- Claim C3 amended witness: a deposit of -3 is rejected with 400 and
leaves the store unchanged. -/
theorem C3_deposit_cases_witness :
    depositMoney [] "alice" (-3) 7 =
      ([], .error ⟨400, "Invalid deposit request"⟩) :=
  (C3_deposit_cases [] "alice" (-3) 7).1 (by norm_num)

/-- Claim C4 counterexample: a successful updateProfile call that
creates the Account record (status 200, fresh record with wallet 0)
returns without dispatching the propagation goroutine, so the Profile
Sync Propagator is not triggered on every successful call. -/
theorem C4_create_path_skips_propagation :
    (updateAccount [] "alice" "Alice" "RBC" 5).status = 200 ∧
    (updateAccount [] "alice" "Alice" "RBC" 5).accounts =
      [{ username := "alice", name := "Alice", bankName := "RBC",
         wallet := 0, updatedAt := 5 }] ∧
    (updateAccount [] "alice" "Alice" "RBC" 5).propagationDispatched = false :=
  ⟨rfl, rfl, rfl⟩

/-- Claim C4 amended: the propagation goroutine is dispatched exactly
when a prior Account record existed for the username — the branch that
creates a fresh record returns before reaching the dispatch, so only
updates of existing records trigger the Profile Sync Propagator
(asynchronously, after the response is written). -/
theorem C4_propagation_iff_existing (accounts : List UserAccount)
    (uname n b : String) (now : Nat) :
    (updateAccount accounts uname n b now).propagationDispatched =
      (findAccount accounts uname).isSome := by
  unfold updateAccount
  by_cases h : (updateOneSet accounts uname n b now).2 = 0
  · rw [if_pos h]
    have hnone := (updateOneSet_snd_eq_zero_iff accounts uname n b now).mp h
    simp [hnone]
  · rw [if_neg h]
    cases hfa : findAccount accounts uname with
    | none =>
      exact absurd ((updateOneSet_snd_eq_zero_iff accounts uname n b now).mpr hfa) h
    | some a => simp

/-- Claim C5: a token issued at login carries issuedAt = now and
expiresAt = now + 1 hour; both token validators (the Authentication
service's validateJWTFromRequest and the User Account service's
authenticate middleware) accept it exactly while the current time is
strictly before expiresAt, and answer the 401 authentication error once
the current time is at or past expiresAt. -/
theorem C5_token_window (uname : String) (now t : Nat) :
    (issueToken uname now).issuedAt = now ∧
    (issueToken uname now).expiresAt = now + 3600 ∧
    (validateJWTFromRequest (issueToken uname now) t =
        .ok (issueToken uname now) ↔ t < now + 3600) ∧
    (authenticateToken (issueToken uname now) t = .ok uname ↔
        t < now + 3600) ∧
    (now + 3600 ≤ t →
      validateJWTFromRequest (issueToken uname now) t =
        .error ⟨401, "invalid or expired token"⟩) ∧
    (now + 3600 ≤ t →
      authenticateToken (issueToken uname now) t =
        .error ⟨401, "Invalid or expired token"⟩) := by
  have hval : validateJWTFromRequest (issueToken uname now) t =
      if now + 3600 ≤ t then .error ⟨401, "invalid or expired token"⟩
      else .ok (issueToken uname now) := by
    simp [validateJWTFromRequest, issueToken, jwtKey, Alg.isHMAC]
  have hauth : authenticateToken (issueToken uname now) t =
      if now + 3600 ≤ t then .error ⟨401, "Invalid or expired token"⟩
      else .ok uname := by
    simp [authenticateToken, issueToken, jwtKey, Alg.isHMAC]
  refine ⟨rfl, rfl, ?_, ?_, ?_, ?_⟩
  · rw [hval]
    by_cases hc : now + 3600 ≤ t
    · simp [hc, Nat.not_lt.mpr hc]
    · simp [hc, Nat.lt_of_not_le hc]
  · rw [hauth]
    by_cases hc : now + 3600 ≤ t
    · simp [hc, Nat.not_lt.mpr hc]
    · simp [hc, Nat.lt_of_not_le hc]
  · intro hc
    rw [hval, if_pos hc]
  · intro hc
    rw [hauth, if_pos hc]

/-- Claim C5 witness: a token issued at time 0 is rejected by the
Authentication service validator at its exact expiry time 3600. -/
theorem C5_token_window_witness :
    validateJWTFromRequest (issueToken "alice" 0) 3600 =
      .error ⟨401, "invalid or expired token"⟩ :=
  (C5_token_window "alice" 0 3600).2.2.2.2.1 (by norm_num)

/-- Claim C6: registration with any empty field fails with 400 and
inserts nothing; registration for a username that already has an
Identity record fails with 409 and inserts nothing; otherwise exactly
one Identity record is appended, whose password field is the digest of
the supplied password. -/
theorem C6_register_cases (hash : String → String) (users : List User)
    (u p n : String) :
    ((u = "" ∨ p = "" ∨ n = "") →
      registerHandler hash users u p n =
        (users, 400, "Missing required fields")) ∧
    (u ≠ "" → p ≠ "" → n ≠ "" → (findUser users u).isSome = true →
      registerHandler hash users u p n =
        (users, 409, "Username already exists")) ∧
    (u ≠ "" → p ≠ "" → n ≠ "" → findUser users u = none →
      registerHandler hash users u p n =
        (users ++ [{ username := u, password := hash p, name := n }],
         201, "User registered successfully")) := by
  refine ⟨?_, ?_, ?_⟩
  · intro h
    unfold registerHandler
    rw [if_pos h]
  · intro hu hp hn hsome
    have hne : countUsers users u ≠ 0 := by
      intro h0
      rw [(countUsers_eq_zero_iff users u).mp h0] at hsome
      simp at hsome
    unfold registerHandler
    rw [if_neg (by simp [hu, hp, hn]), if_pos (Nat.pos_of_ne_zero hne)]
  · intro hu hp hn hnone
    have h0 : countUsers users u = 0 := (countUsers_eq_zero_iff users u).mpr hnone
    unfold registerHandler
    rw [if_neg (by simp [hu, hp, hn]), if_neg (by rw [h0]; exact lt_irrefl 0)]

/-- Claim C6 witness: registering alice in an empty store appends
exactly one Identity record carrying the digest of the password. -/
theorem C6_register_cases_witness :
    registerHandler (fun s => String.append "digest-" s) [] "alice" "pw123" "Alice A" =
      ([{ username := "alice", password := String.append "digest-" "pw123",
          name := "Alice A" }],
       201, "User registered successfully") :=
  (C6_register_cases (fun s => String.append "digest-" s) [] "alice" "pw123" "Alice A").2.2
    (by decide) (by decide) (by decide) rfl

/-- Claim C7: a login for an absent username and a login for a present
username with a non-matching password produce the identical error —
same 401 status and same message — so the caller cannot distinguish the
two cases. -/
theorem C7_login_indistinguishable (compare : String → String → Bool)
    (users : List User) (u1 p1 u2 p2 : String) (user : User) (n1 n2 : Nat)
    (h1 : findUser users u1 = none)
    (h2 : findUser users u2 = some user)
    (h3 : compare user.password p2 = false) :
    loginHandler compare users u1 p1 n1 =
      .error ⟨401, "Invalid username or password"⟩ ∧
    loginHandler compare users u2 p2 n2 =
      .error ⟨401, "Invalid username or password"⟩ := by
  constructor
  · unfold loginHandler
    rw [h1]
  · unfold loginHandler
    rw [h2]
    simp [h3]

/-- Claim C7 witness: with only bob registered and a digest comparator
that rejects, the unknown-user login and the wrong-password login return
the same 401 error with the same message. -/
theorem C7_login_indistinguishable_witness :
    loginHandler (fun _ _ => false)
      [{ username := "bob", password := "d", name := "Bob" }] "alice" "pw" 0 =
      .error ⟨401, "Invalid username or password"⟩ ∧
    loginHandler (fun _ _ => false)
      [{ username := "bob", password := "d", name := "Bob" }] "bob" "pw" 3 =
      .error ⟨401, "Invalid username or password"⟩ :=
  C7_login_indistinguishable (fun _ _ => false)
    [{ username := "bob", password := "d", name := "Bob" }] "alice" "pw" "bob" "pw"
    { username := "bob", password := "d", name := "Bob" } 0 3 rfl rfl rfl

/-- Claim C8: updateUserInfo answers 200 for every username, including
one with no Identity record, in which case the store is also left
unchanged; within the model the only failure mode left is a storage
failure, which is an external capability. -/
theorem C8_updateDisplayName_silent_success (users : List User)
    (uname newName : String) :
    (updateUserInfo users uname newName).2.1 = 200 ∧
    (findUser users uname = none →
      (updateUserInfo users uname newName).1 = users) := by
  refine ⟨rfl, ?_⟩
  intro h
  have hupd := updateOneSetUser_of_findUser_none h newName
  simp [updateUserInfo, hupd]

/-- Claim C8 witness: updating the display name of an absent username
answers 200 and leaves the empty store unchanged. -/
theorem C8_updateDisplayName_silent_success_witness :
    (updateUserInfo [] "alice" "X").2.1 = 200 ∧
    (updateUserInfo [] "alice" "X").1 = [] :=
  ⟨(C8_updateDisplayName_silent_success [] "alice" "X").1,
   (C8_updateDisplayName_silent_success [] "alice" "X").2 rfl⟩

/-- Claim C9: on an account whose record holds wallet w, depositing 100
and then 50 — in either order, and each deposit being a single atomic
field-level increment at the storage layer, so these two orders exhaust
the interleavings of two concurrent deposits — succeeds and leaves the
record's wallet at w + 150: no lost updates. -/
theorem C9_no_lost_updates (accounts : List UserAccount) (uname : String)
    (acc : UserAccount) (n1 n2 : Nat)
    (h : findAccount accounts uname = some acc) :
    ((depositMoney (depositMoney accounts uname 100 n1).1 uname 50 n2).2 =
        .ok () ∧
      ∃ acc2,
        findAccount
          (depositMoney (depositMoney accounts uname 100 n1).1 uname 50 n2).1
          uname = some acc2 ∧
        acc2.wallet = acc.wallet + 150) ∧
    ((depositMoney (depositMoney accounts uname 50 n1).1 uname 100 n2).2 =
        .ok () ∧
      ∃ acc2,
        findAccount
          (depositMoney (depositMoney accounts uname 50 n1).1 uname 100 n2).1
          uname = some acc2 ∧
        acc2.wallet = acc.wallet + 150) := by
  have h100 : (0 : Rat) < 100 := by norm_num
  have h50 : (0 : Rat) < 50 := by norm_num
  constructor
  · obtain ⟨_, hA2⟩ := depositMoney_of_found h h100 n1
    obtain ⟨hB1, hB2⟩ := depositMoney_of_found hA2 h50 n2
    exact ⟨hB1, _, hB2, by simp; ring⟩
  · obtain ⟨_, hA2⟩ := depositMoney_of_found h h50 n1
    obtain ⟨hB1, hB2⟩ := depositMoney_of_found hA2 h100 n2
    exact ⟨hB1, _, hB2, by simp; ring⟩

/-- Claim C9 witness: on a store holding alice with wallet 7, the two
deposit orders both succeed and both leave wallet 157. -/
theorem C9_no_lost_updates_witness :
    ((depositMoney
        (depositMoney
          [{ username := "alice", name := "Alice", bankName := "", wallet := 7,
             updatedAt := 0 }] "alice" 100 1).1 "alice" 50 2).2 = .ok () ∧
      ∃ acc2,
        findAccount
          (depositMoney
            (depositMoney
              [{ username := "alice", name := "Alice", bankName := "",
                 wallet := 7, updatedAt := 0 }] "alice" 100 1).1 "alice" 50 2).1
          "alice" = some acc2 ∧
        acc2.wallet = 7 + 150) ∧
    ((depositMoney
        (depositMoney
          [{ username := "alice", name := "Alice", bankName := "", wallet := 7,
             updatedAt := 0 }] "alice" 50 1).1 "alice" 100 2).2 = .ok () ∧
      ∃ acc2,
        findAccount
          (depositMoney
            (depositMoney
              [{ username := "alice", name := "Alice", bankName := "",
                 wallet := 7, updatedAt := 0 }] "alice" 50 1).1 "alice" 100 2).1
          "alice" = some acc2 ∧
        acc2.wallet = 7 + 150) :=
  C9_no_lost_updates
    [{ username := "alice", name := "Alice", bankName := "", wallet := 7,
       updatedAt := 0 }] "alice"
    { username := "alice", name := "Alice", bankName := "", wallet := 7,
      updatedAt := 0 } 1 2 rfl

/-- Claim C10: a successful updateProfile on an existing Account record
replaces only the first record matching the username, setting its name,
bank name and update time; its username and wallet are unchanged and
every other record of the collection is untouched. -/
theorem C10_update_frame (accounts : List UserAccount) (uname n b : String)
    (now : Nat) (acc : UserAccount)
    (h : findAccount accounts uname = some acc) :
    ∃ pre suf,
      accounts = pre ++ acc :: suf ∧
      (∀ x ∈ pre, x.username ≠ uname) ∧
      (updateAccount accounts uname n b now).accounts =
        pre ++ { acc with name := n, bankName := b, updatedAt := now } :: suf ∧
      ({ acc with name := n, bankName := b, updatedAt := now } : UserAccount).username
        = acc.username ∧
      ({ acc with name := n, bankName := b, updatedAt := now } : UserAccount).wallet
        = acc.wallet := by
  obtain ⟨hu, pre, suf, heq, hpre⟩ := findAccount_some_split h
  refine ⟨pre, suf, heq, hpre, ?_, rfl, rfl⟩
  have hset := updateOneSet_of_prefix pre suf acc uname n b now hpre hu
  unfold updateAccount
  rw [heq, hset]
  simp

/-- Claim C10 witness: updating the profile of alice, whose record holds
wallet 7, rewrites only her name, bank name and update time. -/
theorem C10_update_frame_witness :
    ∃ pre suf,
      [({ username := "alice", name := "A", bankName := "B", wallet := 7,
          updatedAt := 0 } : UserAccount)] = pre ++
        { username := "alice", name := "A", bankName := "B", wallet := 7,
          updatedAt := 0 } :: suf ∧
      (∀ x ∈ pre, x.username ≠ "alice") ∧
      (updateAccount
        [{ username := "alice", name := "A", bankName := "B", wallet := 7,
           updatedAt := 0 }] "alice" "N" "C" 9).accounts =
        pre ++ { username := "alice", name := "N", bankName := "C", wallet := 7,
                 updatedAt := 9 } :: suf ∧
      ({ username := "alice", name := "N", bankName := "C", wallet := 7,
         updatedAt := 9 } : UserAccount).username = "alice" ∧
      ({ username := "alice", name := "N", bankName := "C", wallet := 7,
         updatedAt := 9 } : UserAccount).wallet = 7 :=
  C10_update_frame
    [{ username := "alice", name := "A", bankName := "B", wallet := 7,
       updatedAt := 0 }] "alice" "N" "C" 9
    { username := "alice", name := "A", bankName := "B", wallet := 7,
      updatedAt := 0 } rfl

end DayTrading
